import Mathlib

/-!
Shallow embedding of the two Mastra workflows (weather-workflow and
web-search-workflow) from the repository's workflow module.

External HTTP responses (geocoding, weather, LLM text generation) are
modelled as environment values supplied to each step's `execute`
function: each run makes at most one call to each external service, so
the environment records the response that call would return.  JavaScript
numbers are modelled as rationals (ℚ); thrown `Error` values are
modelled as an explicit error type returned through `Except`.
-/

/-- A geocoding candidate: one element of `geocodingData.results`. -/
structure GeoCandidate where
  latitude : ℚ
  longitude : ℚ
  name : String
deriving DecidableEq, Repr

/-- The decoded geocoding response `{ results: {latitude, longitude, name}[] }`. -/
structure GeocodingData where
  results : List GeoCandidate
deriving DecidableEq, Repr

/-- The `current` block of the weather response: `{ time, precipitation, weathercode }`. -/
structure CurrentWeather where
  time : String
  precipitation : ℚ
  weathercode : Int
deriving DecidableEq, Repr

/-- The `hourly` block of the weather response:
`{ precipitation_probability: number[], temperature_2m: number[] }`. -/
structure HourlyData where
  precipitation_probability : List ℚ
  temperature_2m : List ℚ
deriving DecidableEq, Repr

/-- The decoded weather response `{ current, hourly }`. -/
structure WeatherData where
  current : CurrentWeather
  hourly : HourlyData
deriving DecidableEq, Repr

/-- The `forecastSchema` record produced by the fetch-weather step. -/
structure Forecast where
  date : String
  maxTemp : ℚ
  minTemp : ℚ
  precipitationChance : ℚ
  condition : String
  location : String
deriving DecidableEq, Repr

/-- Input of the weather workflow and of the fetch-weather step: `{ city }`. -/
structure CityInput where
  city : String
deriving DecidableEq, Repr

/-- Output of both planning steps: `{ activities }`. -/
structure PlanOutput where
  activities : String
deriving DecidableEq, Repr

/-- The `Error` values thrown by the step `execute` functions, keyed by
their message: `'Input data not found'`, `` `Location '${city}' not found` ``,
`'Forecast data not found'`, `'Search results not found'`. -/
inductive WorkflowError where
  | inputDataNotFound
  | locationNotFound (city : String)
  | forecastNotFound
  | searchResultsNotFound
deriving DecidableEq, Repr

/-- Environment of one weather-workflow run: the geocoding response, the
weather response, the value of `new Date().toISOString()` at the moment the
forecast record is built, and the chunks of `response.textStream` that the
agent's streaming call delivers in order. -/
structure WeatherEnv where
  geocodingData : GeocodingData
  weatherData : WeatherData
  now : String
  chunks : List String
deriving DecidableEq, Repr

/-- The `conditions` lookup table of `getWeatherCondition`, rendered as the
list of its keys (used to state what "in the table" means). -/
def weatherCodeKeys : List Int :=
  [0, 1, 2, 3, 45, 48, 51, 53, 55, 61, 63, 65, 71, 73, 75, 95]

/-- `getWeatherCondition(code)`: static lookup `conditions[code] || 'Unknown'`.
Every label in the table is a non-empty (truthy) string, so the JavaScript
`||` fallback fires exactly on the keys absent from the table. -/
def getWeatherCondition (code : Int) : String :=
  if code = 0 then "Clear sky"
  else if code = 1 then "Mainly clear"
  else if code = 2 then "Partly cloudy"
  else if code = 3 then "Overcast"
  else if code = 45 then "Foggy"
  else if code = 48 then "Depositing rime fog"
  else if code = 51 then "Light drizzle"
  else if code = 53 then "Moderate drizzle"
  else if code = 55 then "Dense drizzle"
  else if code = 61 then "Slight rain"
  else if code = 63 then "Moderate rain"
  else if code = 65 then "Heavy rain"
  else if code = 71 then "Slight snow fall"
  else if code = 73 then "Moderate snow fall"
  else if code = 75 then "Heavy snow fall"
  else if code = 95 then "Thunderstorm"
  else "Unknown"

/-- `Math.max(...l)` over a spread list.  JavaScript returns `-Infinity` on an
empty spread; `-Infinity` has no counterpart in ℚ, so the `[]` branch carries a
placeholder value and every theorem about this function assumes the list is
non-empty (the spec leaves the empty case explicitly undefined). -/
def jsMathMax (l : List ℚ) : ℚ :=
  match l with
  | [] => 0
  | t :: ts => ts.foldl max t

/-- `Math.min(...l)`, same conventions as `jsMathMax` (JavaScript gives
`Infinity` on an empty spread). -/
def jsMathMin (l : List ℚ) : ℚ :=
  match l with
  | [] => 0
  | t :: ts => ts.foldl min t

/-- `data.hourly.precipitation_probability.reduce((acc, curr) => Math.max(acc, curr), 0)`. -/
def precipChance (P : List ℚ) : ℚ :=
  P.foldl (fun acc curr => max acc curr) 0

/-- The `execute` function of the `fetch-weather` step.  The geocoding fetch
and the weather fetch return the corresponding environment values; the first
geocoding candidate's latitude, longitude and name are destructured exactly as
in the source, though only geocoding success feeds into the forecast. -/
def fetchWeatherExecute (env : WeatherEnv) (inputData : Option CityInput) :
    Except WorkflowError Forecast :=
  match inputData with
  | none => .error .inputDataNotFound
  | some input =>
    match env.geocodingData.results with
    | [] => .error (.locationNotFound input.city)
    | _cand :: _ =>
      let data := env.weatherData
      .ok
        { date := env.now
          maxTemp := jsMathMax data.hourly.temperature_2m
          minTemp := jsMathMin data.hourly.temperature_2m
          condition := getWeatherCondition data.current.weathercode
          precipitationChance := precipChance data.hourly.precipitation_probability
          location := input.city }

/-- `for await (const chunk of response.textStream) activitiesText += chunk`,
starting from `let activitiesText = ''`. -/
def accumulateStream (chunks : List String) : String :=
  chunks.foldl (fun acc chunk => acc ++ chunk) ""

/-- The `execute` function of the `plan-activities` step.  The prompt built
from the forecast is consumed by the external agent, whose streamed reply is
the environment's `chunks`; the function returns the in-order accumulation of
those chunks, paired with the number of text-generation (`agent.stream`)
calls it performed. -/
def planActivitiesExecute (chunks : List String) (inputData : Option Forecast) :
    Except WorkflowError PlanOutput × Nat :=
  match inputData with
  | none => (.error .forecastNotFound, 0)
  | some _forecast => (.ok { activities := accumulateStream chunks }, 1)

deriving instance DecidableEq for Except

/-- Trace of one weather-workflow run: the final result, how many times the
second step's `execute` ran, and how many text-generation calls were made. -/
structure RunTrace where
  result : Except WorkflowError PlanOutput
  step2Invocations : Nat
  genCalls : Nat
deriving DecidableEq, Repr

/-- One run of `weatherWorkflow = createWorkflow(...).then(fetchWeather).then(planActivities)`:
the runner invokes the first step, and on success hands the validated forecast
to the second step; on failure the run aborts with the error and the second
step is never invoked. -/
def runWeatherWorkflow (env : WeatherEnv) (input : Option CityInput) : RunTrace :=
  match fetchWeatherExecute env input with
  | .error e => { result := .error e, step2Invocations := 0, genCalls := 0 }
  | .ok forecast =>
    let step2 := planActivitiesExecute env.chunks (some forecast)
    { result := step2.1, step2Invocations := 1, genCalls := step2.2 }

/-- Input of the `web-search-info` step: `{ query, focus? }`. -/
structure WebSearchInput where
  query : String
  focus : Option String
deriving DecidableEq, Repr

/-- Output of the `web-search-info` step: `{ searchResults, query, focus? }`. -/
structure WebSearchOutput where
  searchResults : String
  query : String
  focus : Option String
deriving DecidableEq, Repr

/-- The `searchQuery` ternary of the `web-search-info` step, which branches on
the JavaScript truthiness of `inputData.focus`: `undefined` and the empty
string are both falsy.
focus truthy: `` `${query} ${focus} current information activities attractions events` ``;
focus falsy: `` `${query} current activities attractions events what to do` ``. -/
def searchQuery (query : String) (focus : Option String) : String :=
  match focus with
  | some f =>
    if f.isEmpty then s!"{query} current activities attractions events what to do"
    else s!"{query} {f} current information activities attractions events"
  | none => s!"{query} current activities attractions events what to do"

/-- The user-message content sent to `webSearchAgent.generate`. -/
def searchPrompt (sq : String) : String :=
  s!"Search for current information about: {sq}\n        \nPlease use web search to find the most up-to-date information and provide a comprehensive summary of what you discover."

/-- The `execute` function of the `web-search-info` step.  `genText` models
the external agent's non-streaming `generate` call: it maps the prompt content
to the complete response text. -/
def webSearchInfoExecute (genText : String → String) (inputData : Option WebSearchInput) :
    Except WorkflowError WebSearchOutput :=
  match inputData with
  | none => .error .inputDataNotFound
  | some input =>
    let sq := searchQuery input.query input.focus
    .ok
      { searchResults := genText (searchPrompt sq)
        query := input.query
        focus := input.focus }

/-! Concrete environments used to instantiate the theorems below on
closed inputs. -/

/-- A run whose geocoding call finds one candidate for Paris and whose
weather call reports the probe series from the spec's test vector. -/
def envParis : WeatherEnv :=
  { geocodingData := ⟨[⟨2, 48, "Paris"⟩]⟩
    weatherData :=
      { current := { time := "2024-06-01T12:00", precipitation := 0, weathercode := 0 }
        hourly := { precipitation_probability := [10, 90, 30], temperature_2m := [12, 20, 15] } }
    now := "2024-06-01T12:00:00.000Z"
    chunks := ["Go ", "outside"] }

/-- The forecast record `envParis` produces for the city `"Paris"`. -/
def forecastParis : Forecast :=
  { date := "2024-06-01T12:00:00.000Z"
    maxTemp := 20
    minTemp := 12
    precipitationChance := 90
    condition := "Clear sky"
    location := "Paris" }

/-- A run whose geocoding call returns zero candidates. -/
def envNowhere : WeatherEnv :=
  { geocodingData := ⟨[]⟩
    weatherData :=
      { current := { time := "2024-06-01T12:00", precipitation := 0, weathercode := 0 }
        hourly := { precipitation_probability := [], temperature_2m := [] } }
    now := "2024-06-01T12:00:00.000Z"
    chunks := ["should ", "never ", "stream"] }

/-- Same request moment as `envParis` but an entirely different weather
response (different provider time field included). -/
def envParisOther : WeatherEnv :=
  { geocodingData := ⟨[⟨2, 48, "Paris, Ile-de-France"⟩]⟩
    weatherData :=
      { current := { time := "1999-12-31T23:59", precipitation := 7, weathercode := 95 }
        hourly := { precipitation_probability := [100], temperature_2m := [-3] } }
    now := "2024-06-01T12:00:00.000Z"
    chunks := [] }

/-- The forecast record `envParisOther` produces for the city `"Paris"`. -/
def forecastParisOther : Forecast :=
  { date := "2024-06-01T12:00:00.000Z"
    maxTemp := -3
    minTemp := -3
    precipitationChance := 100
    condition := "Thunderstorm"
    location := "Paris" }

/-! Helper lemmas. -/

/-- Folding `max` whose initial value is itself a `max` commutes with the
outer `max`. -/
lemma foldl_max_max (l : List ℚ) : ∀ c a : ℚ, l.foldl max (max c a) = max c (l.foldl max a) := by
  induction l with
  | nil => intro c a; rfl
  | cons b t ih =>
    intro c a
    show t.foldl max (max (max c a) b) = max c (t.foldl max (max a b))
    rw [max_assoc]
    exact ih c (max a b)

/-- Unfolding the reduce of `precipChance` on a non-empty list. -/
lemma precipChance_cons (a : ℚ) (as : List ℚ) :
    precipChance (a :: as) = max 0 (as.foldl max a) := by
  show as.foldl max (max 0 a) = max 0 (as.foldl max a)
  exact foldl_max_max as 0 a

/-- The reduce of `precipChance` never goes below its initial value `0`. -/
lemma precipChance_nonneg (P : List ℚ) : 0 ≤ precipChance P := by
  cases P with
  | nil => exact le_refl 0
  | cons a as =>
    rw [precipChance_cons]
    exact le_max_left 0 _

/-- On any list with a maximum, `precipChance` computes that maximum clamped
below by the sentinel `0`. -/
lemma precipChance_eq_clamped_max (P : List ℚ) (m : ℚ) (hm : P.max? = some m) :
    precipChance P = max 0 m := by
  cases P with
  | nil => exact absurd hm (by simp [List.max?])
  | cons a as =>
    have h : (some (as.foldl max a) : Option ℚ) = some m := hm
    have h2 : as.foldl max a = m := Option.some.inj h
    rw [precipChance_cons, h2]

/-- On a non-empty list of non-negative readings, `precipChance` is exactly
the list maximum. -/
lemma precipChance_eq_max_of_nonneg (P : List ℚ) (hne : P ≠ [])
    (hpos : ∀ x ∈ P, 0 ≤ x) : P.max? = some (precipChance P) := by
  cases P with
  | nil => exact absurd rfl hne
  | cons a as =>
    have ha : (0 : ℚ) ≤ a := hpos a (List.mem_cons_self a as)
    show some (as.foldl max a) = some (precipChance (a :: as))
    have h : precipChance (a :: as) = as.foldl max (max 0 a) := rfl
    rw [h, max_eq_right ha]

/-- Every field of a forecast successfully produced by the fetch-weather step,
expressed in terms of the run environment. -/
lemma fetchWeather_ok_fields (env : WeatherEnv) (input : CityInput) (f : Forecast)
    (hok : fetchWeatherExecute env (some input) = Except.ok f) :
    f.date = env.now ∧
    f.maxTemp = jsMathMax env.weatherData.hourly.temperature_2m ∧
    f.minTemp = jsMathMin env.weatherData.hourly.temperature_2m ∧
    f.condition = getWeatherCondition env.weatherData.current.weathercode ∧
    f.precipitationChance = precipChance env.weatherData.hourly.precipitation_probability ∧
    f.location = input.city := by
  unfold fetchWeatherExecute at hok
  cases hres : env.geocodingData.results with
  | nil =>
    rw [hres] at hok
    exact absurd hok (by simp)
  | cons cand rest =>
    rw [hres] at hok
    simp only [] at hok
    injection hok with h
    subst h
    exact ⟨rfl, rfl, rfl, rfl, rfl, rfl⟩

/-- Appending-fold with a composite initial string peels off the left part. -/
lemma foldl_append_init (l : List String) :
    ∀ a b : String,
      l.foldl (fun acc chunk => acc ++ chunk) (a ++ b) =
        a ++ l.foldl (fun acc chunk => acc ++ chunk) b := by
  induction l with
  | nil => intro a b; rfl
  | cons x t ih =>
    intro a b
    show t.foldl _ ((a ++ b) ++ x) = a ++ t.foldl _ (b ++ x)
    rw [String.append_assoc]
    exact ih a (b ++ x)

/-- Rendering a string through its show instance is the identity. -/
lemma toString_string_self (s : String) : toString s = s := rfl

/-- The accumulated stream satisfies the head-concatenation law. -/
lemma accumulateStream_cons (c : String) (l : List String) :
    accumulateStream (c :: l) = c ++ accumulateStream l := by
  have h := foldl_append_init l c ""
  simpa [accumulateStream] using h

/-! Claim theorems. -/

/-- Claim C1: for every hourly precipitation-probability series (non-empty,
readings non-negative), the fetch-weather step's `precipitationChance` field
is the maximum of the series — and on the probe series `[10, 90, 30]` the
computed chance is `90`. -/
theorem fetchWeather_precipitationChance_is_max (env : WeatherEnv) (input : CityInput)
    (f : Forecast) (hok : fetchWeatherExecute env (some input) = Except.ok f)
    (hne : env.weatherData.hourly.precipitation_probability ≠ [])
    (hprob : ∀ x ∈ env.weatherData.hourly.precipitation_probability, 0 ≤ x) :
    env.weatherData.hourly.precipitation_probability.max? = some f.precipitationChance ∧
    precipChance [10, 90, 30] = 90 := by
  constructor
  · have hf := (fetchWeather_ok_fields env input f hok).2.2.2.2.1
    rw [hf]
    exact precipChance_eq_max_of_nonneg _ hne hprob
  · show max (max (max 0 10) 90) 30 = 90
    norm_num

/-- Witness for C1 at the concrete Paris run with series `[10, 90, 30]`. -/
theorem fetchWeather_precipitationChance_is_max_witness :
    fetchWeatherExecute envParis (some ⟨"Paris"⟩) = Except.ok forecastParis ∧
    ([10, 90, 30] : List ℚ).max? = some forecastParis.precipitationChance ∧
    forecastParis.precipitationChance = 90 :=
  ⟨by decide,
   (fetchWeather_precipitationChance_is_max envParis ⟨"Paris"⟩ forecastParis
      (by decide) (by decide) (by decide)).1,
   by decide⟩

/-- Claim C3: the weather-code mapping is a total function on the integers;
every key of the fixed table yields its documented label, and every integer
outside the table yields exactly `"Unknown"`. -/
theorem getWeatherCondition_total_and_table :
    (getWeatherCondition 0 = "Clear sky" ∧
     getWeatherCondition 1 = "Mainly clear" ∧
     getWeatherCondition 2 = "Partly cloudy" ∧
     getWeatherCondition 3 = "Overcast" ∧
     getWeatherCondition 45 = "Foggy" ∧
     getWeatherCondition 48 = "Depositing rime fog" ∧
     getWeatherCondition 51 = "Light drizzle" ∧
     getWeatherCondition 53 = "Moderate drizzle" ∧
     getWeatherCondition 55 = "Dense drizzle" ∧
     getWeatherCondition 61 = "Slight rain" ∧
     getWeatherCondition 63 = "Moderate rain" ∧
     getWeatherCondition 65 = "Heavy rain" ∧
     getWeatherCondition 71 = "Slight snow fall" ∧
     getWeatherCondition 73 = "Moderate snow fall" ∧
     getWeatherCondition 75 = "Heavy snow fall" ∧
     getWeatherCondition 95 = "Thunderstorm") ∧
    ∀ code : Int, code ∉ weatherCodeKeys → getWeatherCondition code = "Unknown" := by
  refine ⟨⟨rfl, rfl, rfl, rfl, rfl, rfl, rfl, rfl, rfl, rfl, rfl, rfl, rfl, rfl, rfl, rfl⟩, ?_⟩
  intro code h
  simp only [weatherCodeKeys, List.mem_cons, List.not_mem_nil, or_false, not_or] at h
  obtain ⟨h0, h1, h2, h3, h45, h48, h51, h53, h55, h61, h63, h65, h71, h73, h75, h95⟩ := h
  simp [getWeatherCondition, h0, h1, h2, h3, h45, h48, h51, h53, h55, h61, h63, h65,
    h71, h73, h75, h95]

/-- Witness for C3 at code `7`, which is outside the table. -/
theorem getWeatherCondition_total_and_table_witness :
    (7 : Int) ∉ weatherCodeKeys ∧ getWeatherCondition 7 = "Unknown" :=
  ⟨by decide, getWeatherCondition_total_and_table.2 7 (by decide)⟩

/-- Claim C6: stream accumulation is the in-order concatenation of the
delivered fragments (head-concatenation law), it maps the probe fragments
to exactly `"Hello, world"`, and it is order-sensitive. -/
theorem accumulateStream_in_order_concat :
    (∀ (c : String) (l : List String), accumulateStream (c :: l) = c ++ accumulateStream l) ∧
    accumulateStream ["Hel", "lo, ", "world"] = "Hello, world" ∧
    accumulateStream ["lo, ", "Hel", "world"] ≠ accumulateStream ["Hel", "lo, ", "world"] :=
  ⟨accumulateStream_cons, rfl, by decide⟩

/-- Claim C10: the precipitation reduce starts from the sentinel `0`, so it
returns `0` on the empty series, is never negative, and on any series with a
maximum it returns that maximum clamped below by `0`. -/
theorem precipChance_sentinel_clamp :
    precipChance [] = 0 ∧
    (∀ P : List ℚ, 0 ≤ precipChance P) ∧
    ∀ (P : List ℚ) (m : ℚ), P.max? = some m → precipChance P = max 0 m :=
  ⟨rfl, precipChance_nonneg, precipChance_eq_clamped_max⟩

/-- Witness for C10 on the all-negative series `[-5, -3]`: the clamped result
is `0`, not the series maximum `-3`. -/
theorem precipChance_sentinel_clamp_witness :
    ([-5, -3] : List ℚ).max? = some (-3) ∧
    precipChance [-5, -3] = max 0 (-3) ∧ max (0 : ℚ) (-3) = 0 :=
  ⟨by decide, precipChance_sentinel_clamp.2.2 [-5, -3] (-3) (by decide), by decide⟩

/-- Claim C5: for every non-empty hourly temperature series, the fetch-weather
step's `maxTemp` is the series maximum and `minTemp` the series minimum. -/
theorem fetchWeather_temp_max_min (env : WeatherEnv) (input : CityInput) (f : Forecast)
    (hok : fetchWeatherExecute env (some input) = Except.ok f)
    (hne : env.weatherData.hourly.temperature_2m ≠ []) :
    env.weatherData.hourly.temperature_2m.max? = some f.maxTemp ∧
    env.weatherData.hourly.temperature_2m.min? = some f.minTemp := by
  obtain ⟨-, hmax, hmin, -, -, -⟩ := fetchWeather_ok_fields env input f hok
  rw [hmax, hmin]
  cases hT : env.weatherData.hourly.temperature_2m with
  | nil => exact absurd hT hne
  | cons t ts => exact ⟨rfl, rfl⟩

/-- Witness for C5 at the concrete Paris run with series `[12, 20, 15]`. -/
theorem fetchWeather_temp_max_min_witness :
    fetchWeatherExecute envParis (some ⟨"Paris"⟩) = Except.ok forecastParis ∧
    ([12, 20, 15] : List ℚ).max? = some forecastParis.maxTemp ∧
    ([12, 20, 15] : List ℚ).min? = some forecastParis.minTemp :=
  ⟨by decide,
   (fetchWeather_temp_max_min envParis ⟨"Paris"⟩ forecastParis (by decide) (by decide)).1,
   (fetchWeather_temp_max_min envParis ⟨"Paris"⟩ forecastParis (by decide) (by decide)).2⟩

/-- Claim C7: the forecast's `date` field comes from the request moment only;
two successful runs at the same request time agree on `date` no matter how
their provider responses differ. -/
theorem forecast_date_from_request_time (env1 env2 : WeatherEnv) (input1 input2 : CityInput)
    (f1 f2 : Forecast) (hnow : env1.now = env2.now)
    (h1 : fetchWeatherExecute env1 (some input1) = Except.ok f1)
    (h2 : fetchWeatherExecute env2 (some input2) = Except.ok f2) :
    f1.date = f2.date := by
  have d1 := (fetchWeather_ok_fields env1 input1 f1 h1).1
  have d2 := (fetchWeather_ok_fields env2 input2 f2 h2).1
  rw [d1, d2, hnow]

/-- Witness for C7: two runs at the same request moment whose weather
responses differ everywhere (provider time field included) yield equal dates. -/
theorem forecast_date_from_request_time_witness :
    envParis.now = envParisOther.now ∧
    envParis.weatherData ≠ envParisOther.weatherData ∧
    fetchWeatherExecute envParis (some ⟨"Paris"⟩) = Except.ok forecastParis ∧
    fetchWeatherExecute envParisOther (some ⟨"Paris"⟩) = Except.ok forecastParisOther ∧
    forecastParis.date = forecastParisOther.date :=
  ⟨rfl, by decide, by decide, by decide,
   forecast_date_from_request_time envParis envParisOther ⟨"Paris"⟩ ⟨"Paris"⟩
     forecastParis forecastParisOther rfl (by decide) (by decide)⟩

/-- Claim C9: the forecast's `location` field is the caller-supplied city
string, not the canonical name of the geocoding candidate. -/
theorem forecast_location_is_input_city (env : WeatherEnv) (input : CityInput) (f : Forecast)
    (hok : fetchWeatherExecute env (some input) = Except.ok f) :
    f.location = input.city :=
  (fetchWeather_ok_fields env input f hok).2.2.2.2.2

/-- Witness for C9: the geocoder's canonical name differs from the input
city, yet `location` is the input city verbatim. -/
theorem forecast_location_is_input_city_witness :
    (envParisOther.geocodingData.results.head?.map GeoCandidate.name =
      some "Paris, Ile-de-France") ∧
    fetchWeatherExecute envParisOther (some ⟨"Paris"⟩) = Except.ok forecastParisOther ∧
    forecastParisOther.location = "Paris" :=
  ⟨by decide, by decide,
   forecast_location_is_input_city envParisOther ⟨"Paris"⟩ forecastParisOther (by decide)⟩

/-- Claim C4: when the geocoding lookup returns zero candidates, the whole
weather-workflow run fails with the location-not-found error, the second step
is never invoked, and no text-generation call is made. -/
theorem geocoding_empty_aborts_before_step2 (env : WeatherEnv) (input : CityInput)
    (hempty : env.geocodingData.results = []) :
    runWeatherWorkflow env (some input) =
      { result := .error (.locationNotFound input.city)
        step2Invocations := 0
        genCalls := 0 } := by
  unfold runWeatherWorkflow fetchWeatherExecute
  rw [hempty]

/-- Witness for C4 at a concrete run whose geocoding response is empty. -/
theorem geocoding_empty_aborts_before_step2_witness :
    envNowhere.geocodingData.results = [] ∧
    runWeatherWorkflow envNowhere (some ⟨"Atlantis"⟩) =
      { result := .error (.locationNotFound "Atlantis")
        step2Invocations := 0
        genCalls := 0 } :=
  ⟨rfl, geocoding_empty_aborts_before_step2 envNowhere ⟨"Atlantis"⟩ rfl⟩

/-- Claim C8: the web-search step copies `query` and `focus` from its input
to its output unchanged. -/
theorem webSearch_preserves_query_and_focus (genText : String → String)
    (input : WebSearchInput) (out : WebSearchOutput)
    (hok : webSearchInfoExecute genText (some input) = Except.ok out) :
    out.query = input.query ∧ out.focus = input.focus := by
  unfold webSearchInfoExecute at hok
  injection hok with h
  subst h
  exact ⟨rfl, rfl⟩

/-- Witness for C8 at a concrete query with a focus. -/
theorem webSearch_preserves_query_and_focus_witness :
    webSearchInfoExecute (fun _ => "findings") (some ⟨"Tokyo", some "food"⟩) =
      Except.ok { searchResults := "findings", query := "Tokyo", focus := some "food" } ∧
    (WebSearchOutput.mk "findings" "Tokyo" (some "food")).query = "Tokyo" ∧
    (WebSearchOutput.mk "findings" "Tokyo" (some "food")).focus = some "food" :=
  ⟨rfl,
   (webSearch_preserves_query_and_focus (fun _ => "findings") ⟨"Tokyo", some "food"⟩
      ⟨"findings", "Tokyo", some "food"⟩ rfl).1,
   (webSearch_preserves_query_and_focus (fun _ => "findings") ⟨"Tokyo", some "food"⟩
      ⟨"findings", "Tokyo", some "food"⟩ rfl).2⟩

/-- Claim C2 (counterexample): without a focus, the search phrase the code
builds is not the claimed query-plus-fixed-boilerplate phrase — the no-focus
branch uses different boilerplate. -/
theorem searchQuery_no_focus_differs :
    searchQuery "Paris" none = "Paris current activities attractions events what to do" ∧
    searchQuery "Paris" none ≠ "Paris current information activities attractions events" :=
  ⟨rfl, by decide⟩

/-- Claim C2 (amended): with a truthy (non-empty) focus the phrase is the
query, the focus, then "current information activities attractions events";
with a falsy focus (absent, or present but empty, since the JavaScript
ternary tests truthiness) it is the query then the different boilerplate
"current activities attractions events what to do". -/
theorem searchQuery_branches (q f : String) :
    (f ≠ "" →
      searchQuery q (some f) =
        q ++ " " ++ f ++ " current information activities attractions events") ∧
    searchQuery q (some "") = q ++ " current activities attractions events what to do" ∧
    searchQuery q none = q ++ " current activities attractions events what to do" := by
  refine ⟨fun hf => ?_, ?_, ?_⟩
  · simp [searchQuery, String.isEmpty_iff, hf, String.append_assoc, toString_string_self]
  · simp [searchQuery, String.isEmpty_iff, String.append_assoc, toString_string_self]
  · simp [searchQuery, String.append_assoc, toString_string_self]

/-- Witness for the amended C2 at a non-empty focus and at the empty focus. -/
theorem searchQuery_branches_witness :
    ("food" : String) ≠ "" ∧
    searchQuery "Tokyo" (some "food") =
      "Tokyo" ++ " " ++ "food" ++ " current information activities attractions events" ∧
    searchQuery "Tokyo" (some "") =
      "Tokyo" ++ " current activities attractions events what to do" :=
  ⟨by decide,
   (searchQuery_branches "Tokyo" "food").1 (by decide),
   (searchQuery_branches "Tokyo" "food").2.1⟩
